import Mathlib

/-!
Verification of the code-practice subsystem of the interview-practice backend
(`main.py`): the answer comparator `compare_answers`, the post-generation
answer validator `validate_and_fix_problem`, and the no-input code executor
`execute_code_no_input`.

Modelling conventions:
* Python strings are Lean `String`s; only ASCII behaviour of `str.lower`,
  `str.strip` and the `\w`/`\s`/`\d` regex classes is modelled.
* Python float values are modelled as exact rationals.  Because `Rat`'s
  arithmetic does not reduce in the kernel, computations use `PyQ`, an
  unnormalised fraction type with a positive denominator, interpreted into
  `Rat` by `PyQ.toRat` for specification statements.  `float(...)` parsing
  covers finite decimal literals with optional sign, fraction and exponent
  (the special literals `inf`/`nan` and digit-group underscores are outside
  the model).
* The effect of `exec`/calling user code cannot be embedded, so it is an
  explicit behaviour parameter of a submission (see `ExecOutcome`).
-/

namespace CodePractice

/-- An exact rational used to model Python float values: numerator over a
denominator that is positive for every value the model constructs.  Kept
unnormalised so that all arithmetic reduces in the kernel. -/
structure PyQ where
  num : Int
  den : Int
deriving Repr, DecidableEq

namespace PyQ

/-- Interpretation of a `PyQ` as a rational number. -/
def toRat (x : PyQ) : Rat := (x.num : Rat) / (x.den : Rat)

/-- Embed an integer. -/
def ofInt (n : Int) : PyQ := ⟨n, 1⟩

/-- Exact addition (cross multiplication, no reduction). -/
def add (x y : PyQ) : PyQ := ⟨x.num * y.den + y.num * x.den, x.den * y.den⟩

/-- Exact subtraction. -/
def sub (x y : PyQ) : PyQ := ⟨x.num * y.den - y.num * x.den, x.den * y.den⟩

/-- Exact multiplication. -/
def mul (x y : PyQ) : PyQ := ⟨x.num * y.num, x.den * y.den⟩

/-- Division by a positive natural number (list length, power of ten). -/
def divPos (x : PyQ) (n : Nat) : PyQ := ⟨x.num, x.den * n⟩

/-- Strict order test; correct whenever both denominators are positive. -/
def ltB (x y : PyQ) : Bool := decide (x.num * y.den < y.num * x.den)

/-- Absolute value; correct whenever the denominator is positive. -/
def absQ (x : PyQ) : PyQ := ⟨|x.num|, x.den⟩

theorem toRat_sub (x y : PyQ) (hx : x.den ≠ 0) (hy : y.den ≠ 0) :
    (x.sub y).toRat = x.toRat - y.toRat := by
  simp only [toRat, sub]
  have hx' : (x.den : Rat) ≠ 0 := Int.cast_ne_zero.mpr hx
  have hy' : (y.den : Rat) ≠ 0 := Int.cast_ne_zero.mpr hy
  field_simp
  ring

theorem toRat_absQ (x : PyQ) (hx : 0 < x.den) :
    (x.absQ).toRat = |x.toRat| := by
  simp only [toRat, absQ]
  rw [abs_div]
  congr 1
  · exact Int.cast_abs
  · rw [abs_of_pos (by exact_mod_cast hx)]

theorem ltB_iff (x y : PyQ) (hx : 0 < x.den) (hy : 0 < y.den) :
    x.ltB y = true ↔ x.toRat < y.toRat := by
  have hx' : (0 : Rat) < (x.den : Rat) := by exact_mod_cast hx
  have hy' : (0 : Rat) < (y.den : Rat) := by exact_mod_cast hy
  simp only [ltB, toRat, decide_eq_true_eq]
  rw [div_lt_div_iff₀ hx' hy']
  constructor
  · intro h
    exact_mod_cast h
  · intro h
    exact_mod_cast h

end PyQ

/-- ASCII whitespace, as matched by Python's `str.strip` and the `\s` class. -/
def pySpace (c : Char) : Bool :=
  c == ' ' || c == '\t' || c == '\n' || c == '\r' || c == '\x0b' || c == '\x0c'

/-- Python `str.strip()` (ASCII whitespace). -/
def pyStrip (s : String) : String :=
  String.mk (((s.data.dropWhile pySpace).reverse.dropWhile pySpace).reverse)

/-- Python `str.lower()` (ASCII letters). -/
def pyLower (s : String) : String :=
  String.mk (s.data.map Char.toLower)

/-- Is `n` a contiguous sublist of the second list? (Python's `n in hay`.) -/
def isSubstrList (n : List Char) : List Char → Bool
  | [] => n.isEmpty
  | c :: t => n.isPrefixOf (c :: t) || isSubstrList n t

/-- Python's `needle in hay` substring test on strings. -/
def isSubstr (needle hay : String) : Bool :=
  isSubstrList needle.data hay.data

/-- The normalisation both arguments of `compare_answers` undergo:
`str(x).strip().replace(" ", "").replace("\n", "").replace("\r", "")`. -/
def normalizeAnswer (s : String) : String :=
  String.mk ((pyStrip s).data.filter (fun c => !(c == ' ' || c == '\n' || c == '\r')))

/-- Numeric value of a digit string (used for regex groups fed to `int`). -/
def digitsToNat (l : List Char) : Nat :=
  l.foldl (fun a c => a * 10 + (c.toNat - '0'.toNat)) 0

/-- Scale by `10^e` for an integer exponent. -/
def scalePow10 (x : PyQ) : Int → PyQ
  | Int.ofNat n => x.mul ⟨(10 : Int) ^ n, 1⟩
  | Int.negSucc n => x.divPos (10 ^ (n + 1))

/-- Parse the mantissa of a Python float literal (digits, optional `.` and
fraction digits); returns its value and the unconsumed suffix. -/
def parseMantissa (l : List Char) : Option (PyQ × List Char) :=
  match l.dropWhile Char.isDigit with
  | '.' :: r2 =>
    if l.takeWhile Char.isDigit = [] ∧ r2.takeWhile Char.isDigit = [] then none
    else
      some (⟨(digitsToNat (l.takeWhile Char.isDigit) : Int)
               * 10 ^ (r2.takeWhile Char.isDigit).length
               + digitsToNat (r2.takeWhile Char.isDigit),
             (10 : Int) ^ (r2.takeWhile Char.isDigit).length⟩,
            r2.dropWhile Char.isDigit)
  | r1 =>
    if l.takeWhile Char.isDigit = [] then none
    else some (⟨(digitsToNat (l.takeWhile Char.isDigit) : Int), 1⟩, r1)

/-- Parse the optional exponent suffix (`e`/`E`, optional sign, digits). -/
def parseExp : List Char → Option Int
  | [] => some 0
  | c :: rest =>
    if c = 'e' ∨ c = 'E' then
      match rest with
      | '+' :: ds => if ds ≠ [] ∧ ds.all Char.isDigit then some (digitsToNat ds) else none
      | '-' :: ds => if ds ≠ [] ∧ ds.all Char.isDigit then some (-(digitsToNat ds : Int)) else none
      | ds => if ds ≠ [] ∧ ds.all Char.isDigit then some (digitsToNat ds) else none
    else none

/-- Mantissa and exponent of an (already sign-stripped) float literal. -/
def pyFloatBody (neg : Bool) (l : List Char) : Option PyQ :=
  match parseMantissa l with
  | none => none
  | some (m, rest) =>
    match parseExp rest with
    | none => none
    | some e => some (scalePow10 (if neg then ⟨-m.num, m.den⟩ else m) e)

/-- Python's `float(s)`: `some` value on success, `none` when `float` raises
`ValueError`. Finite decimal literals only (see module conventions): strip
whitespace, optional sign, mantissa, optional exponent. -/
def pyFloat (s : String) : Option PyQ :=
  match (pyStrip s).data with
  | '+' :: r => pyFloatBody false r
  | '-' :: r => pyFloatBody true r
  | l => pyFloatBody false l

/-- The comparator's numeric tolerance, `0.01`. -/
def centi : PyQ := ⟨1, 100⟩

/-- Truthy answer synonyms of `compare_answers`. -/
def true_vals : List String := ["true", "1", "yes"]

/-- Falsy answer synonyms of `compare_answers`. -/
def false_vals : List String := ["false", "0", "no"]

/-- `compare_answers(actual, expected)` from `main.py`: normalise both
strings, then try case-insensitive equality, numeric comparison with 0.01
tolerance (decisive when both sides parse as floats), boolean synonyms, and
finally substring containment of expected in actual. -/
def compare_answers (actual expected : String) : Bool :=
  let a := normalizeAnswer actual
  let e := normalizeAnswer expected
  if pyLower a == pyLower e then true
  else
    match pyFloat a, pyFloat e with
    | some x, some y => PyQ.ltB (PyQ.absQ (x.sub y)) centi
    | _, _ =>
      if true_vals.contains (pyLower a) && true_vals.contains (pyLower e) then true
      else if false_vals.contains (pyLower a) && false_vals.contains (pyLower e) then true
      else isSubstr e a

example : compare_answers "42" "42.0" = true := by decide
example : compare_answers "The answer is 12" "12" = true := by decide
example : compare_answers "100" "10" = false := by decide
example : compare_answers "True" "yes" = true := by decide
example : compare_answers "cat" "dog" = false := by decide

/-! ## The post-generation answer validator `validate_and_fix_problem` -/

/-- The character class `[\d\s.,]` of the average branch's bracket regex. -/
def bracketClassAvg (c : Char) : Bool :=
  c.isDigit || pySpace c || c == '.' || c == ','

/-- The character class `[\d\s.,\-]` of the extremum branch's bracket regex. -/
def bracketClassExt (c : Char) : Bool :=
  bracketClassAvg c || c == '-'

/-- First match of `\[(<cls>+)\]` in the text (the `[0]` of `re.findall`):
scan left to right for `[`, take a maximal nonempty run of class characters,
require a closing `]`. -/
def findBracketGroup (cls : Char → Bool) : List Char → Option String
  | [] => none
  | c :: rest =>
    if c = '[' then
      let (grp, r1) := rest.span cls
      match r1 with
      | ']' :: _ => if grp.isEmpty then findBracketGroup cls rest else some (String.mk grp)
      | _ => findBracketGroup cls rest
    else findBracketGroup cls rest

/-- `group.replace(' ', '')`: removes space characters only. -/
def removeSpaces (s : String) : String :=
  String.mk (s.data.filter (fun c => !(c == ' ')))

/-- Python's `s.split(',')` on a character list (always at least one piece). -/
def splitOnComma : List Char → List (List Char)
  | [] => [[]]
  | c :: t =>
    if c = ',' then [] :: splitOnComma t
    else
      match splitOnComma t with
      | h :: r => (c :: h) :: r
      | [] => [[c]]

/-- `[float(x.strip()) for x in numbers_str.split(',')]`; `none` when any
element raises `ValueError` (the branch's `except` then leaves the problem
unchanged). -/
def parseFloatList (g : String) : Option (List PyQ) :=
  (splitOnComma (removeSpaces g).data).mapM (fun x => pyFloat (pyStrip (String.mk x)))

/-- Python `int(s)`: optional surrounding whitespace, optional sign, digits. -/
def pyInt (s : String) : Option Int :=
  let l := (pyStrip s).data
  let signed : Bool × List Char :=
    match l with
    | '+' :: r => (false, r)
    | '-' :: r => (true, r)
    | _ => (false, l)
  if signed.2 ≠ [] ∧ signed.2.all Char.isDigit then
    some (if signed.1 then -(digitsToNat signed.2 : Int) else (digitsToNat signed.2 : Int))
  else none

/-- `[int(x.strip()) for x in numbers_str.split(',')]`. -/
def parseIntList (g : String) : Option (List Int) :=
  (splitOnComma (removeSpaces g).data).mapM (fun x => pyInt (pyStrip (String.mk x)))

/-- Round `num/den` (with `den > 0`) to the nearest integer, ties to even —
the rounding of Python's `f"{x:.2f}"` applied to `x*100` (the model rounds
the exact rational; double representation error is outside the model). -/
def roundHalfEven (num den : Int) : Int :=
  let q := Int.fdiv num den
  let r := num - q * den
  if 2 * r < den then q
  else if 2 * r > den then q + 1
  else if q % 2 = 0 then q else q + 1

/-- Two-digit zero-padded rendering of `n < 100`. -/
def pad2 (n : Nat) : String :=
  if n < 10 then "0" ++ toString n else toString n

/-- Python's `f"{x:.2f}"` on the exact rational `x`. -/
def format2 (x : PyQ) : String :=
  let cents := roundHalfEven (x.num * 100) x.den
  let sgn := if cents < 0 then "-" else ""
  let m := cents.natAbs
  sgn ++ toString (m / 100) ++ "." ++ pad2 (m % 100)

/-- A generated coding problem, restricted to the fields
`validate_and_fix_problem` reads or writes. -/
structure Problem where
  title : String
  description : String
  expected_answer : String
deriving Repr, DecidableEq

/-- Gate of the average branch:
`"average" in description.lower() or "mean" in description.lower()`. -/
def avgGate (dl : String) : Bool :=
  isSubstr "average" dl || isSubstr "mean" dl

/-- Gate of the range-sum branch:
`"sum" in description.lower() and "between" in description.lower()`. -/
def sumGate (dl : String) : Bool :=
  isSubstr "sum" dl && isSubstr "between" dl

/-- Gate of the extremum branch: any of largest/smallest/maximum/minimum. -/
def extGate (dl : String) : Bool :=
  isSubstr "largest" dl || isSubstr "smallest" dl ||
    isSubstr "maximum" dl || isSubstr "minimum" dl

/-- Overwrite `expected_answer` when the recomputed string differs. -/
def overwriteIfNe (p : Problem) (correct : String) : Problem :=
  if correct ≠ p.expected_answer then { p with expected_answer := correct } else p

/-- Body of the average branch: first bracketed `[\d\s.,]+` group, parse the
comma-separated floats, recompute the mean, format to two decimals, and
overwrite when `abs(float(correct_answer) - float(expected)) > 0.01`.
Any parse failure is the branch's caught exception: problem unchanged. -/
def averageBranch (p : Problem) : Problem :=
  match findBracketGroup bracketClassAvg p.description.data with
  | none => p
  | some g =>
    match parseFloatList g with
    | none => p
    | some [] => p
    | some (n0 :: rest) =>
      let nums := n0 :: rest
      let avg := (nums.foldl PyQ.add ⟨0, 1⟩).divPos nums.length
      let correct := format2 avg
      match pyFloat correct, pyFloat p.expected_answer with
      | some cv, some ev =>
        if centi.ltB ((cv.sub ev).absQ) then { p with expected_answer := correct } else p
      | _, _ => p

/-- `range(a, b)` as a list of naturals. -/
def pyRange (a b : Nat) : List Nat :=
  (List.range (b - a)).map (a + ·)

/-- Integer square root (largest `k` with `k*k ≤ n`), modelling Python's
`int(n**0.5)`. -/
def intSqrt (n : Nat) : Nat :=
  ((List.range (n + 1)).filter (fun k => k * k ≤ n)).foldl max 0

/-- The branch-local `is_prime`: trial division over `range(2, int(n**0.5)+1)`
(`intSqrt` models the float square root), `n < 2` not prime. -/
def is_prime (n : Nat) : Bool :=
  if n < 2 then false
  else (pyRange 2 (intSqrt n + 1)).all (fun i => !(n % i == 0))

/-- The recomputed range sum for bounds `a..b` inclusive: filtered by even,
odd or prime — in that order of precedence — when the lowered description
mentions the word, else the plain sum. -/
def sumBranchAnswer (dl : String) (a b : Nat) : Nat :=
  if isSubstr "even" dl then ((pyRange a (b + 1)).filter (fun i => i % 2 == 0)).sum
  else if isSubstr "odd" dl then ((pyRange a (b + 1)).filter (fun i => i % 2 == 1)).sum
  else if isSubstr "prime" dl then ((pyRange a (b + 1)).filter is_prime).sum
  else (pyRange a (b + 1)).sum

/-- Try to match `(?:between|from)\s+(\d+)\s+(?:and|to)\s+(\d+)` anchored at
this position; all alternatives have disjoint first characters and every
repeated class is disjoint from its successor, so greedy matching without
backtracking is exact. -/
def matchLit : List Char → List Char → Option (List Char)
  | [], l => some l
  | _ :: _, [] => none
  | c :: cs, d :: ds => if c = d then matchLit cs ds else none

/-- Consume one-or-more whitespace (`\s+`). -/
def spaces1 (l : List Char) : Option (List Char) :=
  let (sp, r) := l.span pySpace
  if sp.isEmpty then none else some r

/-- Consume one-or-more digits (`(\d+)`), returning their value. -/
def digits1 (l : List Char) : Option (Nat × List Char) :=
  let (d, r) := l.span Char.isDigit
  if d.isEmpty then none else some (digitsToNat d, r)

/-- The range regex anchored at one position. -/
def matchRangeAt (l : List Char) : Option (Nat × Nat) := do
  let r1 ← match matchLit "between".data l with
           | some r => some r
           | none => matchLit "from".data l
  let r2 ← spaces1 r1
  let (a, r3) ← digits1 r2
  let r4 ← spaces1 r3
  let r5 ← match matchLit "and".data r4 with
           | some r => some r
           | none => matchLit "to".data r4
  let r6 ← spaces1 r5
  let (b, _) ← digits1 r6
  some (a, b)

/-- `re.search` of the range regex: leftmost matching position. -/
def findRangeAux : List Char → Option (Nat × Nat)
  | [] => none
  | c :: rest =>
    match matchRangeAt (c :: rest) with
    | some p => some p
    | none => findRangeAux rest

/-- Search the range regex in a string. -/
def findRange (s : String) : Option (Nat × Nat) :=
  findRangeAux s.data

/-- Body of the range-sum branch: search the bounds in the lowered
description, recompute, overwrite on string inequality. -/
def sumBranch (p : Problem) : Problem :=
  match findRange (pyLower p.description) with
  | none => p
  | some (a, b) =>
    overwriteIfNe p (toString (sumBranchAnswer (pyLower p.description) a b))

/-- Python `max(list)` (the empty case never arises: `max([])` raises and the
branch's `except` leaves the problem unchanged). -/
def listMax : List Int → Int
  | [] => 0
  | h :: t => t.foldl max h

/-- Python `min(list)`. -/
def listMin : List Int → Int
  | [] => 0
  | h :: t => t.foldl min h

/-- Insert into a strictly descending list, keeping descending order. -/
def insertDesc (x : Int) : List Int → List Int
  | [] => [x]
  | y :: t => if x ≥ y then x :: y :: t else y :: insertDesc x t

/-- `sorted(set(numbers), reverse=True)`: distinct values, descending. -/
def sortedDistinctDesc (l : List Int) : List Int :=
  l.dedup.foldr insertDesc []

/-- `sorted_nums[1] if len(sorted_nums) > 1 else sorted_nums[0]`. -/
def secondLargest (l : List Int) : Int :=
  match sortedDistinctDesc l with
  | _ :: b :: _ => b
  | [a] => a
  | [] => 0

/-- Python `str` of an integer. -/
def intToString (n : Int) : String :=
  if n < 0 then "-" ++ toString n.natAbs else toString n.natAbs

/-- Body of the extremum branch: first bracketed `[\d\s.,\-]+` group, parse
comma-separated ints, then second-largest / largest-or-maximum /
smallest-or-minimum in that order of precedence; overwrite on inequality. -/
def extremumBranch (p : Problem) : Problem :=
  match findBracketGroup bracketClassExt p.description.data with
  | none => p
  | some g =>
    match parseIntList g with
    | none => p
    | some [] => p
    | some (n0 :: rest) =>
      let nums := n0 :: rest
      let dl := pyLower p.description
      if isSubstr "second largest" dl then
        overwriteIfNe p (intToString (secondLargest nums))
      else if isSubstr "largest" dl || isSubstr "maximum" dl then
        overwriteIfNe p (intToString (listMax nums))
      else if isSubstr "smallest" dl || isSubstr "minimum" dl then
        overwriteIfNe p (intToString (listMin nums))
      else p

/-- `validate_and_fix_problem` from `main.py`: an `if`/`elif` chain over the
lowered description — average/mean first, then sum-and-between, then the
extremum words; unrecognised descriptions pass through unchanged. -/
def validate_and_fix_problem (p : Problem) : Problem :=
  let dl := pyLower p.description
  if avgGate dl then averageBranch p
  else if sumGate dl then sumBranch p
  else if extGate dl then extremumBranch p
  else p

example :
    (validate_and_fix_problem ⟨"", "average of [1,2,3,4]", "3"⟩).expected_answer
      = "2.50" := by decide
example :
    (validate_and_fix_problem
      ⟨"", "Find the sum of all prime numbers between 1 and 15.", "40"⟩).expected_answer
      = "41" := by decide
example :
    (validate_and_fix_problem
      ⟨"", "Find the second largest number in [15, 8, 23, 42, 4, 16].", "0"⟩).expected_answer
      = "23" := by decide
example :
    (validate_and_fix_problem
      ⟨"", "Compute the sum of all prime numbers from 1 to 15.", "0"⟩).expected_answer
      = "0" := by decide
example :
    (validate_and_fix_problem
      ⟨"", "On average, find the largest of [1, 2, 3].", "3"⟩).expected_answer
      = "2.00" := by decide

/-! ## The no-input executor `execute_code_no_input` -/

/-- The six-field result dict every path of `execute_code_no_input` returns. -/
structure ExecResult where
  success : Bool
  output : String
  error : Option String
  passed : Bool
  expected : String
  actual : String
deriving Repr, DecidableEq

/-- Behaviour of invoking a zero-argument Python callable: it raises with a
message after printing `stdoutText`, or it returns a value (`none` models
Python `None`; `some s` a value whose `str` rendering is `s`) having written
the given stdout and stderr text. -/
inductive CallOutcome where
  | raises (msg : String) (stdoutText : String)
  | returns (value : Option String) (stdoutText : String) (stderrText : String)
deriving Repr, DecidableEq

/-- Effect of `exec(code, safe_globals)`: raises with a message, or
terminates leaving an environment that assigns a call behaviour to each name
it defines (`none` = name absent from `safe_globals`). -/
inductive ExecOutcome where
  | raises (msg : String)
  | ok (env : String → Option CallOutcome)

/-- A submission: its source text together with its (unembeddable) Python
runtime behaviour. -/
structure Submission where
  code : String
  exec : ExecOutcome

/-- The `\w` regex class (ASCII). -/
def wordChar (c : Char) : Bool :=
  c.isAlphanum || c == '_'

/-- The entry-point regex `def\s+(\w+)\s*\(\s*\)` anchored at one position;
returns the captured name.  Every repeated class is disjoint from the
character that must follow it, so greedy matching without backtracking is
exact. -/
def matchDefAt (l : List Char) : Option String :=
  match matchLit "def".data l with
  | none => none
  | some r0 =>
    match spaces1 r0 with
    | none => none
    | some r1 =>
      let (w, r2) := r1.span wordChar
      if w.isEmpty then none
      else
        match r2.dropWhile pySpace with
        | '(' :: r4 =>
          match r4.dropWhile pySpace with
          | ')' :: _ => some (String.mk w)
          | _ => none
        | _ => none

/-- `re.search` of the entry-point regex: leftmost match wins. -/
def findDefAux : List Char → Option String
  | [] => none
  | c :: rest =>
    match matchDefAt (c :: rest) with
    | some n => some n
    | none => findDefAux rest

/-- `func_match = re.search(r'def\s+(\w+)\s*\(\s*\)', code)`, group 1. -/
def findDefName (code : String) : Option String :=
  findDefAux code.data

/-- Python's `a or b` on strings: `a` if non-empty else `b`. -/
def pyOrElse (a b : String) : String :=
  if a = "" then b else a

/-- `str(result)`: the value's rendering, or `"None"` for Python `None`. -/
def strOfValue (v : Option String) : String :=
  v.getD "None"

/-- `execute_code_no_input(code, expected_answer, language)` from `main.py`. -/
def execute_code_no_input (sub : Submission) (expected_answer : String)
    (language : String) : ExecResult :=
  if language = "python" then
    match findDefName sub.code with
    | none =>
      ⟨false, "", some "Function must have NO parameters: def solution():",
        false, expected_answer, ""⟩
    | some func_name =>
      match sub.exec with
      | ExecOutcome.raises msg =>
        ⟨false, "", some ("Code compilation error: " ++ msg),
          false, expected_answer, ""⟩
      | ExecOutcome.ok env =>
        match env func_name with
        | none =>
          ⟨false, "", some ("Function \x27" ++ func_name ++ "\x27 not found in code"),
            false, expected_answer, ""⟩
        | some (CallOutcome.raises msg stdoutText) =>
          ⟨false, pyStrip stdoutText, some ("Runtime error: " ++ msg),
            false, expected_answer, pyStrip stdoutText⟩
        | some (CallOutcome.returns value stdoutText stderrText) =>
          let printed_output := pyStrip stdoutText
          let error_output := pyStrip stderrText
          if error_output ≠ "" then
            ⟨false, printed_output, some error_output, false, expected_answer,
              pyOrElse printed_output (strOfValue value)⟩
          else
            let actual_output := match value with
              | some s => s
              | none => printed_output
            ⟨true, actual_output, none,
              compare_answers actual_output expected_answer,
              expected_answer, actual_output⟩
  else if language = "javascript" then
    ⟨false, "", some "JavaScript execution not implemented yet",
      false, expected_answer, ""⟩
  else if language = "java" then
    ⟨false, "", some "Java execution not implemented yet",
      false, expected_answer, ""⟩
  else
    ⟨false, "", some ("Unsupported language: " ++ language),
      false, expected_answer, ""⟩

example : findDefName "def calc():\n    return 7" = some "calc" := by decide
example : findDefName "x = 1" = none := by decide
example : findDefName "def first():\n    return 1\ndef solution():\n    return 2"
    = some "first" := by decide
example :
    (execute_code_no_input
      ⟨"def calc():\n    return 7",
        ExecOutcome.ok (fun m => if m = "calc"
          then some (CallOutcome.returns (some "7") "" "") else none)⟩
      "7" "python").passed = true := by decide

/-! ## Shared lemmas -/

/-- No position of `l` matches the entry-point regex iff the search fails. -/
theorem findDefAux_eq_none_iff (l : List Char) :
    findDefAux l = none ↔ ∀ i, matchDefAt (l.drop i) = none := by
  induction l with
  | nil =>
    simp only [findDefAux, List.drop_nil]
    constructor
    · intro _ i
      decide
    · intro _
      trivial
  | cons c rest ih =>
    constructor
    · intro h i
      cases hm : matchDefAt (c :: rest) with
      | some m => rw [findDefAux, hm] at h; exact absurd h (by simp)
      | none =>
        cases i with
        | zero => exact hm
        | succ j =>
          rw [findDefAux, hm] at h
          exact (ih.mp h) j
    · intro h
      have h0 : matchDefAt (c :: rest) = none := by simpa using h 0
      rw [findDefAux, h0]
      exact ih.mpr (fun i => by simpa using h (i + 1))

/-- A successful entry-point search returns the leftmost match. -/
theorem findDefAux_eq_some (l : List Char) (n : String)
    (h : findDefAux l = some n) :
    ∃ i, matchDefAt (l.drop i) = some n ∧ ∀ j < i, matchDefAt (l.drop j) = none := by
  induction l with
  | nil => exact absurd h (by simp [findDefAux])
  | cons c rest ih =>
    cases hm : matchDefAt (c :: rest) with
    | some m =>
      rw [findDefAux, hm] at h
      refine ⟨0, ?_, ?_⟩
      · rw [List.drop_zero, hm]
        exact h
      · intro j hj
        exact absurd hj (Nat.not_lt_zero j)
    | none =>
      rw [findDefAux, hm] at h
      obtain ⟨i, hi, hlt⟩ := ih h
      refine ⟨i + 1, by simpa using hi, ?_⟩
      intro j hj
      cases j with
      | zero => exact hm
      | succ k => simpa using hlt k (Nat.lt_of_succ_lt_succ hj)

/-- Mantissa values always carry a positive denominator (a power of ten). -/
theorem parseMantissa_den_pos (l : List Char) (m : PyQ) (r : List Char)
    (h : parseMantissa l = some (m, r)) : 0 < m.den := by
  unfold parseMantissa at h
  split at h
  · split at h
    · exact absurd h (by simp)
    · simp only [Option.some.injEq, Prod.mk.injEq] at h
      obtain ⟨h1, -⟩ := h
      subst h1
      positivity
  · split at h
    · exact absurd h (by simp)
    · simp only [Option.some.injEq, Prod.mk.injEq] at h
      obtain ⟨h1, -⟩ := h
      subst h1
      norm_num

/-- Scaling by a power of ten preserves denominator positivity. -/
theorem scalePow10_den_pos (x : PyQ) (e : Int) (hx : 0 < x.den) :
    0 < (scalePow10 x e).den := by
  cases e with
  | ofNat k =>
    simp only [scalePow10, PyQ.mul, mul_one]
    exact hx
  | negSucc k =>
    simp only [scalePow10, PyQ.divPos]
    positivity

/-- `pyFloatBody` values carry a positive denominator. -/
theorem pyFloatBody_den_pos (neg : Bool) (l : List Char) (q : PyQ)
    (h : pyFloatBody neg l = some q) : 0 < q.den := by
  unfold pyFloatBody at h
  split at h
  · exact absurd h (by simp)
  · rename_i m rest hm
    split at h
    · exact absurd h (by simp)
    · rename_i e he
      simp only [Option.some.injEq] at h
      subst h
      have hden := parseMantissa_den_pos _ _ _ hm
      cases neg with
      | false => exact scalePow10_den_pos _ _ hden
      | true => exact scalePow10_den_pos _ _ hden

/-- Every value `float()` can produce has a positive denominator. -/
theorem pyFloat_den_pos (s : String) (q : PyQ) (h : pyFloat s = some q) :
    0 < q.den := by
  unfold pyFloat at h
  split at h
  · exact pyFloatBody_den_pos _ _ _ h
  · exact pyFloatBody_den_pos _ _ _ h
  · exact pyFloatBody_den_pos _ _ _ h

/-! ## Claim theorem for the comparator -/

/-- C2: `compare_answers` decides by an ordered strategy on the normalised
strings — (1) case-insensitive equality; (2) if both parse as floats,
`|a-b| < 0.01` decides with no later rule consulted; (3) boolean synonyms;
(4) substring containment of expected in actual, else false — together with
the five concrete examples from the specification. -/
theorem C2_comparator_ordered_strategy (a e : String) :
    (pyLower (normalizeAnswer a) = pyLower (normalizeAnswer e) →
        compare_answers a e = true) ∧
    (pyLower (normalizeAnswer a) ≠ pyLower (normalizeAnswer e) →
      ∀ x y, pyFloat (normalizeAnswer a) = some x →
        pyFloat (normalizeAnswer e) = some y →
        (compare_answers a e = true ↔ |x.toRat - y.toRat| < 1 / 100)) ∧
    (pyLower (normalizeAnswer a) ≠ pyLower (normalizeAnswer e) →
      (pyFloat (normalizeAnswer a) = none ∨ pyFloat (normalizeAnswer e) = none) →
      ((true_vals.contains (pyLower (normalizeAnswer a)) = true ∧
          true_vals.contains (pyLower (normalizeAnswer e)) = true) ∨
        (false_vals.contains (pyLower (normalizeAnswer a)) = true ∧
          false_vals.contains (pyLower (normalizeAnswer e)) = true)) →
      compare_answers a e = true) ∧
    (pyLower (normalizeAnswer a) ≠ pyLower (normalizeAnswer e) →
      (pyFloat (normalizeAnswer a) = none ∨ pyFloat (normalizeAnswer e) = none) →
      ¬(true_vals.contains (pyLower (normalizeAnswer a)) = true ∧
          true_vals.contains (pyLower (normalizeAnswer e)) = true) →
      ¬(false_vals.contains (pyLower (normalizeAnswer a)) = true ∧
          false_vals.contains (pyLower (normalizeAnswer e)) = true) →
      compare_answers a e = isSubstr (normalizeAnswer e) (normalizeAnswer a)) ∧
    (compare_answers "42" "42.0" = true ∧
      compare_answers "The answer is 12" "12" = true ∧
      compare_answers "100" "10" = false ∧
      compare_answers "True" "yes" = true ∧
      compare_answers "cat" "dog" = false) := by
  refine ⟨?_, ?_, ?_, ?_, by decide, by decide, by decide, by decide, by decide⟩
  · intro h
    simp [compare_answers, h]
  · intro hne x y hx hy
    have hb : (pyLower (normalizeAnswer a) == pyLower (normalizeAnswer e)) = false := by
      simpa using hne
    have h1 : compare_answers a e = PyQ.ltB (PyQ.absQ (x.sub y)) centi := by
      simp [compare_answers, hb, hx, hy]
    rw [h1]
    have hdx := pyFloat_den_pos _ _ hx
    have hdy := pyFloat_den_pos _ _ hy
    have hsub : 0 < (x.sub y).den := by
      simp only [PyQ.sub]
      exact mul_pos hdx hdy
    have habs : 0 < ((x.sub y).absQ).den := hsub
    rw [PyQ.ltB_iff _ _ habs (by norm_num [centi] : (0 : Int) < centi.den)]
    rw [PyQ.toRat_absQ _ hsub, PyQ.toRat_sub _ _ (ne_of_gt hdx) (ne_of_gt hdy)]
    have hc : centi.toRat = 1 / 100 := by norm_num [centi, PyQ.toRat]
    rw [hc]
  · intro hne hnone hbool
    have hb : (pyLower (normalizeAnswer a) == pyLower (normalizeAnswer e)) = false := by
      simpa using hne
    have hred : compare_answers a e =
        (if true_vals.contains (pyLower (normalizeAnswer a))
              && true_vals.contains (pyLower (normalizeAnswer e)) then true
         else if false_vals.contains (pyLower (normalizeAnswer a))
              && false_vals.contains (pyLower (normalizeAnswer e)) then true
         else isSubstr (normalizeAnswer e) (normalizeAnswer a)) := by
      cases hA : pyFloat (normalizeAnswer a) with
      | none => simp [compare_answers, hb, hA]
      | some xa =>
        cases hE : pyFloat (normalizeAnswer e) with
        | none => simp [compare_answers, hb, hA, hE]
        | some xe =>
          rcases hnone with h | h
          · rw [h] at hA; exact absurd hA (by simp)
          · rw [h] at hE; exact absurd hE (by simp)
    rcases hbool with ⟨h1, h2⟩ | ⟨h1, h2⟩
    · rw [hred, if_pos (by simp only [Bool.and_eq_true]; exact ⟨h1, h2⟩)]
    · have ht : true_vals.contains (pyLower (normalizeAnswer a)) = false := by
        have h1' : pyLower (normalizeAnswer a) = "false" ∨
            pyLower (normalizeAnswer a) = "0" ∨
            pyLower (normalizeAnswer a) = "no" := by
          simpa [false_vals] using h1
        rcases h1' with h | h | h <;> simp [true_vals, h]
      rw [hred, if_neg (by simp only [ht, Bool.false_and]; exact Bool.false_ne_true),
        if_pos (by simp only [Bool.and_eq_true]; exact ⟨h1, h2⟩)]
  · intro hne hnone hnt hnf
    have hb : (pyLower (normalizeAnswer a) == pyLower (normalizeAnswer e)) = false := by
      simpa using hne
    have hred : compare_answers a e =
        (if true_vals.contains (pyLower (normalizeAnswer a))
              && true_vals.contains (pyLower (normalizeAnswer e)) then true
         else if false_vals.contains (pyLower (normalizeAnswer a))
              && false_vals.contains (pyLower (normalizeAnswer e)) then true
         else isSubstr (normalizeAnswer e) (normalizeAnswer a)) := by
      cases hA : pyFloat (normalizeAnswer a) with
      | none => simp [compare_answers, hb, hA]
      | some xa =>
        cases hE : pyFloat (normalizeAnswer e) with
        | none => simp [compare_answers, hb, hA, hE]
        | some xe =>
          rcases hnone with h | h
          · rw [h] at hA; exact absurd hA (by simp)
          · rw [h] at hE; exact absurd hE (by simp)
    rw [hred, if_neg (by simp only [Bool.and_eq_true]; exact hnt),
      if_neg (by simp only [Bool.and_eq_true]; exact hnf)]

/-- Witness for C2 at the numeric-rule input `("42", "42.0")`: the
comparator's verdict is equivalent to the exact tolerance test. -/
theorem C2_comparator_ordered_strategy_witness :
    compare_answers "42" "42.0" = true ↔
      |PyQ.toRat ⟨42, 1⟩ - PyQ.toRat ⟨420, 10⟩| < 1 / 100 :=
  (C2_comparator_ordered_strategy "42" "42.0").2.1 (by decide) ⟨42, 1⟩ ⟨420, 10⟩
    (by decide) (by decide)

/-! ## Claim theorems for the validator -/

/-- C3 as stated is false: this description matches the range-sum archetype
`"sum ... from X to Y"` with a prime filter (recomputed answer 41), yet the
validator leaves the wrong expected answer `"0"` untouched, because its gate
requires the literal word "between". -/
theorem C3_counterexample_from_to :
    (validate_and_fix_problem
      ⟨"", "Compute the sum of all prime numbers from 1 to 15.", "0"⟩).expected_answer
        = "0" ∧
    (validate_and_fix_problem
      ⟨"", "Compute the sum of all prime numbers from 1 to 15.", "0"⟩).expected_answer
        ≠ "41" := by decide

/-- C3 (amended): when the lowered description contains both "sum" and
"between" and neither "average" nor "mean", and the range regex finds bounds
`a`, `b`, the validator recomputes the inclusive filtered sum (even before
odd before prime) and overwrites `expected_answer` on string mismatch. -/
theorem C3_range_sum_validator (p : Problem) (a b : Nat)
    (havg : avgGate (pyLower p.description) = false)
    (hsum : sumGate (pyLower p.description) = true)
    (hrange : findRange (pyLower p.description) = some (a, b)) :
    (validate_and_fix_problem p).expected_answer =
      (if toString (sumBranchAnswer (pyLower p.description) a b) ≠ p.expected_answer
       then toString (sumBranchAnswer (pyLower p.description) a b)
       else p.expected_answer) := by
  unfold validate_and_fix_problem
  rw [if_neg (by simp [havg]), if_pos hsum]
  unfold sumBranch
  simp only [hrange]
  unfold overwriteIfNe
  by_cases hne : toString (sumBranchAnswer (pyLower p.description) a b) ≠ p.expected_answer
  · rw [if_pos hne, if_pos hne]
  · rw [if_neg hne, if_neg hne]

/-- Witness for amended C3 at the specification's example: the prime sum
between 1 and 15 is 41 and overrides the claimed "40". -/
theorem C3_range_sum_validator_witness :
    (validate_and_fix_problem
      ⟨"", "Find the sum of all prime numbers between 1 and 15.", "40"⟩).expected_answer
        = "41" := by
  have h := C3_range_sum_validator
    ⟨"", "Find the sum of all prime numbers between 1 and 15.", "40"⟩ 1 15
    (by decide) (by decide) (by decide)
  rw [h]
  decide

/-- C4: a description mentioning "average"/"mean" with a bracketed numeric
list gets its mean recomputed, formatted to two decimals, and written over
`expected_answer` exactly when the formatted value differs from the claimed
(parsed) answer by more than 0.01. -/
theorem C4_average_validator (p : Problem) (g : String) (n0 : PyQ)
    (rest : List PyQ) (cl cv : PyQ)
    (hgate : avgGate (pyLower p.description) = true)
    (hbr : findBracketGroup bracketClassAvg p.description.data = some g)
    (hnums : parseFloatList g = some (n0 :: rest))
    (hcl : pyFloat p.expected_answer = some cl)
    (hcv : pyFloat (format2 (((n0 :: rest).foldl PyQ.add ⟨0, 1⟩).divPos
        (n0 :: rest).length)) = some cv) :
    (validate_and_fix_problem p).expected_answer =
      (if 1 / 100 < |cv.toRat - cl.toRat|
       then format2 (((n0 :: rest).foldl PyQ.add ⟨0, 1⟩).divPos (n0 :: rest).length)
       else p.expected_answer) := by
  unfold validate_and_fix_problem
  rw [if_pos hgate]
  unfold averageBranch
  simp only [hbr, hnums, hcl, hcv]
  have hdc := pyFloat_den_pos _ _ hcv
  have hde := pyFloat_den_pos _ _ hcl
  have hsub : 0 < (cv.sub cl).den := by
    simp only [PyQ.sub]
    exact mul_pos hdc hde
  have habs : 0 < ((cv.sub cl).absQ).den := hsub
  have hiff : centi.ltB ((cv.sub cl).absQ) = true ↔ 1 / 100 < |cv.toRat - cl.toRat| := by
    rw [PyQ.ltB_iff _ _ (by norm_num [centi] : (0 : Int) < centi.den) habs]
    rw [PyQ.toRat_absQ _ hsub, PyQ.toRat_sub _ _ (ne_of_gt hdc) (ne_of_gt hde)]
    have hc : centi.toRat = 1 / 100 := by norm_num [centi, PyQ.toRat]
    rw [hc]
  by_cases hlt : centi.ltB ((cv.sub cl).absQ) = true
  · rw [if_pos hlt, if_pos (hiff.mp hlt)]
  · rw [if_neg hlt, if_neg (fun hr => hlt (hiff.mpr hr))]

/-- Witness for C4 at the specification's example: the mean of `[1,2,3,4]`
is forced to `"2.50"` over the wrong claimed answer `"3"`. -/
theorem C4_average_validator_witness :
    (validate_and_fix_problem
      ⟨"", "average of [1,2,3,4]", "3"⟩).expected_answer = "2.50" := by
  have h := C4_average_validator ⟨"", "average of [1,2,3,4]", "3"⟩ "1,2,3,4"
    ⟨1, 1⟩ [⟨2, 1⟩, ⟨3, 1⟩, ⟨4, 1⟩] ⟨3, 1⟩ ⟨250, 100⟩
    (by decide) (by decide) (by decide) (by decide) (by decide)
  rw [h, if_pos ?impos]
  · decide
  case impos =>
    have hx : PyQ.toRat ⟨250, 100⟩ - PyQ.toRat ⟨3, 1⟩ = -(1 / 2) := by
      norm_num [PyQ.toRat]
    rw [hx, abs_neg, abs_of_pos (by norm_num : (0 : Rat) < 1 / 2)]
    norm_num

/-- C5 as stated is false: this description contains "largest" together with
a bracketed integer list whose largest element equals the claimed answer
"3", so the claim says `expected_answer` stays "3"; but the description also
mentions "average", the average branch shadows the extremum branch, and the
answer is overwritten with the mean "2.00". -/
theorem C5_counterexample_average_shadows :
    (validate_and_fix_problem
      ⟨"", "On average, find the largest of [1, 2, 3].", "3"⟩).expected_answer
        = "2.00" ∧
    (validate_and_fix_problem
      ⟨"", "On average, find the largest of [1, 2, 3].", "3"⟩).expected_answer
        ≠ "3" := by decide

/-- C5 (amended): when the description has an extremum word and a bracketed
integer list, and is claimed by neither the average branch nor the range-sum
branch, the validator recomputes second-largest / max / min (in that order
of precedence) and overwrites `expected_answer` on string mismatch. -/
theorem C5_extremum_validator (p : Problem) (g : String) (n0 : Int)
    (rest : List Int)
    (havg : avgGate (pyLower p.description) = false)
    (hsum : sumGate (pyLower p.description) = false)
    (hext : extGate (pyLower p.description) = true)
    (hbr : findBracketGroup bracketClassExt p.description.data = some g)
    (hnums : parseIntList g = some (n0 :: rest)) :
    (validate_and_fix_problem p).expected_answer =
      (if isSubstr "second largest" (pyLower p.description)
       then (overwriteIfNe p (intToString (secondLargest (n0 :: rest)))).expected_answer
       else if isSubstr "largest" (pyLower p.description)
              || isSubstr "maximum" (pyLower p.description)
       then (overwriteIfNe p (intToString (listMax (n0 :: rest)))).expected_answer
       else if isSubstr "smallest" (pyLower p.description)
              || isSubstr "minimum" (pyLower p.description)
       then (overwriteIfNe p (intToString (listMin (n0 :: rest)))).expected_answer
       else p.expected_answer) := by
  unfold validate_and_fix_problem
  rw [if_neg (by simp [havg]), if_neg (by simp [hsum]), if_pos hext]
  unfold extremumBranch
  simp only [hbr, hnums]
  by_cases h1 : isSubstr "second largest" (pyLower p.description) = true
  · rw [if_pos h1, if_pos h1]
  · rw [if_neg h1, if_neg h1]
    by_cases h2 : (isSubstr "largest" (pyLower p.description)
        || isSubstr "maximum" (pyLower p.description)) = true
    · rw [if_pos h2, if_pos h2]
    · rw [if_neg h2, if_neg h2]
      by_cases h3 : (isSubstr "smallest" (pyLower p.description)
          || isSubstr "minimum" (pyLower p.description)) = true
      · rw [if_pos h3, if_pos h3]
      · rw [if_neg h3, if_neg h3]

/-- Witness for amended C5 at the specification's example: the second
largest of `[15, 8, 23, 42, 4, 16]` is 23 and overrides the claimed "0". -/
theorem C5_extremum_validator_witness :
    (validate_and_fix_problem
      ⟨"", "Find the second largest number in [15, 8, 23, 42, 4, 16].",
        "0"⟩).expected_answer = "23" := by
  have h := C5_extremum_validator
    ⟨"", "Find the second largest number in [15, 8, 23, 42, 4, 16].", "0"⟩
    "15, 8, 23, 42, 4, 16" 15 [8, 23, 42, 4, 16]
    (by decide) (by decide) (by decide) (by decide) (by decide)
  rw [h]
  decide

/-! ## Claim theorems for the executor -/

/-- C1: when the invoked entry point emits text on stderr that is non-empty
after stripping, `execute_code_no_input` reports `success=false`,
`passed=false` and `error` equal to that captured (stripped) diagnostic
text, even when a return value was also produced. -/
theorem C1_stderr_means_failure (sub : Submission) (exp n : String)
    (env : String → Option CallOutcome) (v : Option String) (so se : String)
    (hdef : findDefName sub.code = some n)
    (hexec : sub.exec = ExecOutcome.ok env)
    (hcall : env n = some (CallOutcome.returns v so se))
    (hse : pyStrip se ≠ "") :
    (execute_code_no_input sub exp "python").success = false ∧
    (execute_code_no_input sub exp "python").passed = false ∧
    (execute_code_no_input sub exp "python").error = some (pyStrip se) := by
  unfold execute_code_no_input
  simp only [hdef, hexec, hcall, reduceIte]
  rw [if_pos hse]
  exact ⟨rfl, rfl, rfl⟩

/-- Witness for C1: entry point `calc` returns 7 but writes `boom` on
stderr; the result fails with that text as the error. -/
theorem C1_stderr_means_failure_witness :
    (execute_code_no_input
      ⟨"def calc():\n    return 7",
        ExecOutcome.ok (fun m => if m = "calc"
          then some (CallOutcome.returns (some "7") "" "boom") else none)⟩
      "7" "python").success = false ∧
    (execute_code_no_input
      ⟨"def calc():\n    return 7",
        ExecOutcome.ok (fun m => if m = "calc"
          then some (CallOutcome.returns (some "7") "" "boom") else none)⟩
      "7" "python").passed = false ∧
    (execute_code_no_input
      ⟨"def calc():\n    return 7",
        ExecOutcome.ok (fun m => if m = "calc"
          then some (CallOutcome.returns (some "7") "" "boom") else none)⟩
      "7" "python").error = some "boom" :=
  C1_stderr_means_failure _ "7" "calc" _ (some "7") "" "boom"
    (by decide) rfl (by decide) (by decide)

/-- C6: a submission with no zero-parameter `def name()` shape anywhere in
its text yields the fixed malformed-submission failure record
(`success=false`, `passed=false`, descriptive error), and the result does
not depend on the submission's runtime behaviour — no part of the code is
executed or invoked. -/
theorem C6_no_entrypoint_fails_fast (code : String) (ex ex' : ExecOutcome)
    (exp : String)
    (h : ∀ i, matchDefAt (code.data.drop i) = none) :
    execute_code_no_input ⟨code, ex⟩ exp "python" =
      ⟨false, "", some "Function must have NO parameters: def solution():",
        false, exp, ""⟩ ∧
    execute_code_no_input ⟨code, ex⟩ exp "python" =
      execute_code_no_input ⟨code, ex'⟩ exp "python" := by
  have hnone : findDefName code = none := (findDefAux_eq_none_iff code.data).mpr h
  constructor
  · unfold execute_code_no_input
    simp only [hnone, reduceIte]
  · unfold execute_code_no_input
    simp only [hnone, reduceIte]

/-- Witness for C6: `x = 1` defines no zero-parameter function; the result
is the malformed-submission record whatever the runtime behaviour is. -/
theorem C6_no_entrypoint_fails_fast_witness :
    execute_code_no_input ⟨"x = 1", ExecOutcome.raises "anything"⟩ "42" "python" =
      ⟨false, "", some "Function must have NO parameters: def solution():",
        false, "42", ""⟩ ∧
    execute_code_no_input ⟨"x = 1", ExecOutcome.raises "anything"⟩ "42" "python" =
      execute_code_no_input ⟨"x = 1", ExecOutcome.ok (fun _ => none)⟩ "42" "python" :=
  C6_no_entrypoint_fails_fast "x = 1" _ _ "42"
    ((findDefAux_eq_none_iff "x = 1".data).mp (by decide))

/-- C7: an invocation that returns without raising and without (stripped)
stderr text yields `success=true`, `error=None`, and `actual`/`output` equal
to the string rendering of the return value when it is not `None`, else the
captured (stripped) printed text. -/
theorem C7_success_output (sub : Submission) (exp n : String)
    (env : String → Option CallOutcome) (v : Option String) (so se : String)
    (hdef : findDefName sub.code = some n)
    (hexec : sub.exec = ExecOutcome.ok env)
    (hcall : env n = some (CallOutcome.returns v so se))
    (hse : pyStrip se = "") :
    (execute_code_no_input sub exp "python").success = true ∧
    (execute_code_no_input sub exp "python").error = none ∧
    (execute_code_no_input sub exp "python").actual = v.getD (pyStrip so) ∧
    (execute_code_no_input sub exp "python").output = v.getD (pyStrip so) := by
  unfold execute_code_no_input
  simp only [hdef, hexec, hcall, reduceIte]
  rw [if_neg (by simp [hse])]
  cases v with
  | none => exact ⟨rfl, rfl, rfl, rfl⟩
  | some s => exact ⟨rfl, rfl, rfl, rfl⟩

/-- Witness for C7: the entry point prints text but returns `"42"`; the
actual output is the return value, not the printed text. -/
theorem C7_success_output_witness :
    (execute_code_no_input
      ⟨"def calc():\n    print(1)\n    return 42",
        ExecOutcome.ok (fun m => if m = "calc"
          then some (CallOutcome.returns (some "42") "hi\n" "") else none)⟩
      "42" "python").success = true ∧
    (execute_code_no_input
      ⟨"def calc():\n    print(1)\n    return 42",
        ExecOutcome.ok (fun m => if m = "calc"
          then some (CallOutcome.returns (some "42") "hi\n" "") else none)⟩
      "42" "python").error = none ∧
    (execute_code_no_input
      ⟨"def calc():\n    print(1)\n    return 42",
        ExecOutcome.ok (fun m => if m = "calc"
          then some (CallOutcome.returns (some "42") "hi\n" "") else none)⟩
      "42" "python").actual = "42" ∧
    (execute_code_no_input
      ⟨"def calc():\n    print(1)\n    return 42",
        ExecOutcome.ok (fun m => if m = "calc"
          then some (CallOutcome.returns (some "42") "hi\n" "") else none)⟩
      "42" "python").output = "42" :=
  C7_success_output _ "42" "calc" _ (some "42") "hi\n" ""
    (by decide) rfl (by decide) (by decide)

/-- C8: every path of `execute_code_no_input` returns a complete six-field
result whose `expected` field is the `expected_answer` argument (the record
type makes the six fields structural); and any language other than the three
named ones gets the deterministic unsupported-language record. -/
theorem C8_result_always_complete (sub : Submission) (exp lang : String) :
    (execute_code_no_input sub exp lang).expected = exp ∧
    (lang ≠ "python" → lang ≠ "javascript" → lang ≠ "java" →
      execute_code_no_input sub exp lang =
        ⟨false, "", some ("Unsupported language: " ++ lang), false, exp, ""⟩) := by
  obtain ⟨code, ex⟩ := sub
  constructor
  · unfold execute_code_no_input
    repeat' split
    all_goals try rfl
    all_goals (simp only []; split <;> rfl)
  · intro h1 h2 h3
    unfold execute_code_no_input
    rw [if_neg h1, if_neg h2, if_neg h3]

/-- Witness for C8 at the unsupported language `ruby`. -/
theorem C8_result_always_complete_witness :
    (execute_code_no_input ⟨"x = 1", ExecOutcome.raises "e"⟩ "5" "ruby").expected
        = "5" ∧
    execute_code_no_input ⟨"x = 1", ExecOutcome.raises "e"⟩ "5" "ruby" =
      ⟨false, "", some "Unsupported language: ruby", false, "5", ""⟩ :=
  ⟨(C8_result_always_complete ⟨"x = 1", ExecOutcome.raises "e"⟩ "5" "ruby").1,
   (C8_result_always_complete ⟨"x = 1", ExecOutcome.raises "e"⟩ "5" "ruby").2
     (by decide) (by decide) (by decide)⟩

/-- C9: `passed=true` implies `success=true`, and `passed` is true exactly
on the single path where the language is python, the entry point was found,
`exec` succeeded, the invocation returned without raising and without
(stripped) stderr text, and the comparator accepted the actual output. -/
theorem C9_passed_only_on_clean_success (sub : Submission) (exp lang : String) :
    ((execute_code_no_input sub exp lang).passed = true →
      (execute_code_no_input sub exp lang).success = true) ∧
    ((execute_code_no_input sub exp lang).passed = true ↔
      lang = "python" ∧ ∃ n env v so se,
        findDefName sub.code = some n ∧ sub.exec = ExecOutcome.ok env ∧
        env n = some (CallOutcome.returns v so se) ∧ pyStrip se = "" ∧
        compare_answers (v.getD (pyStrip so)) exp = true) := by
  obtain ⟨code, ex⟩ := sub
  by_cases hl : lang = "python"
  · subst hl
    cases hd : findDefName code with
    | none =>
      have hr : execute_code_no_input ⟨code, ex⟩ exp "python" =
          ⟨false, "", some "Function must have NO parameters: def solution():",
            false, exp, ""⟩ := by
        unfold execute_code_no_input
        simp only [hd, reduceIte]
      rw [hr]
      refine ⟨by simp, ?_⟩
      simp [hd]
    | some n₀ =>
      cases ex with
      | raises msg =>
        have hr : execute_code_no_input ⟨code, ExecOutcome.raises msg⟩ exp "python" =
            ⟨false, "", some ("Code compilation error: " ++ msg), false, exp, ""⟩ := by
          unfold execute_code_no_input
          simp only [hd, reduceIte]
        rw [hr]
        refine ⟨by simp, ?_⟩
        simp [hd]
      | ok env₀ =>
        cases hc : env₀ n₀ with
        | none =>
          have hr : execute_code_no_input ⟨code, ExecOutcome.ok env₀⟩ exp "python" =
              ⟨false, "", some ("Function \x27" ++ n₀ ++ "\x27 not found in code"),
                false, exp, ""⟩ := by
            unfold execute_code_no_input
            simp only [hd, hc, reduceIte]
          rw [hr]
          refine ⟨by simp, ?_⟩
          simp [hd, hc]
        | some b =>
          cases b with
          | raises msg so =>
            have hr : execute_code_no_input ⟨code, ExecOutcome.ok env₀⟩
                exp "python" =
                ⟨false, pyStrip so, some ("Runtime error: " ++ msg), false, exp,
                  pyStrip so⟩ := by
              unfold execute_code_no_input
              simp only [hd, hc, reduceIte]
            rw [hr]
            refine ⟨by simp, ?_⟩
            simp [hd, hc]
          | returns v so se =>
            by_cases hse : pyStrip se = ""
            · have hr : execute_code_no_input ⟨code, ExecOutcome.ok env₀⟩
                  exp "python" =
                  ⟨true, v.getD (pyStrip so), none,
                    compare_answers (v.getD (pyStrip so)) exp, exp,
                    v.getD (pyStrip so)⟩ := by
                unfold execute_code_no_input
                simp only [hd, hc, reduceIte]
                rw [if_neg (by simp [hse])]
                cases v with
                | none => rfl
                | some s => rfl
              rw [hr]
              refine ⟨fun _ => rfl, ?_⟩
              constructor
              · intro hcmp
                exact ⟨rfl, n₀, env₀, v, so, se, rfl, rfl, hc, hse, hcmp⟩
              · rintro ⟨-, n, env, v', so', se', hn, henv, hcall, hse', hcmp⟩
                cases hn
                cases henv
                rw [hc] at hcall
                cases hcall
                exact hcmp
            · have hr : execute_code_no_input ⟨code, ExecOutcome.ok env₀⟩
                  exp "python" =
                  ⟨false, pyStrip so, some (pyStrip se), false, exp,
                    pyOrElse (pyStrip so) (strOfValue v)⟩ := by
                unfold execute_code_no_input
                simp only [hd, hc, reduceIte]
                rw [if_pos hse]
              rw [hr]
              refine ⟨by simp, ?_⟩
              constructor
              · intro h
                exact absurd h (by simp)
              · rintro ⟨-, n, env, v', so', se', hn, henv, hcall, hse', hcmp⟩
                cases hn
                cases henv
                rw [hc] at hcall
                cases hcall
                exact absurd hse' hse
  · have hr : ∃ e, execute_code_no_input ⟨code, ex⟩ exp lang =
        ⟨false, "", some e, false, exp, ""⟩ := by
      unfold execute_code_no_input
      rw [if_neg hl]
      split
      · exact ⟨_, rfl⟩
      · split
        · exact ⟨_, rfl⟩
        · exact ⟨_, rfl⟩
    obtain ⟨e, hr⟩ := hr
    rw [hr]
    refine ⟨by simp, ?_⟩
    simp [hl]

/-- Witness for C9: the concrete clean-success submission of C7 passes, and
the theorem yields `success=true` for it. -/
theorem C9_passed_only_on_clean_success_witness :
    (execute_code_no_input
      ⟨"def calc():\n    return 7",
        ExecOutcome.ok (fun m => if m = "calc"
          then some (CallOutcome.returns (some "7") "" "") else none)⟩
      "7" "python").success = true :=
  (C9_passed_only_on_clean_success
      ⟨"def calc():\n    return 7",
        ExecOutcome.ok (fun m => if m = "calc"
          then some (CallOutcome.returns (some "7") "" "") else none)⟩
      "7" "python").1 (by decide)

/-- C10: the entry point is the textually first zero-parameter `def` in the
submission — there is a match position before which nothing matches, and its
captured name is what `findDefName` returns; exactly that name is looked up
(an environment lacking it yields the "not found" record naming it) and
invoked (the result depends on the environment only at that name). -/
theorem C10_entry_is_first_textual_def (code n : String)
    (h : findDefName code = some n) :
    (∃ i, matchDefAt (code.data.drop i) = some n ∧
       ∀ j < i, matchDefAt (code.data.drop j) = none) ∧
    (∀ exp (env : String → Option CallOutcome), env n = none →
       execute_code_no_input ⟨code, ExecOutcome.ok env⟩ exp "python" =
         ⟨false, "", some ("Function \x27" ++ n ++ "\x27 not found in code"),
           false, exp, ""⟩) ∧
    (∀ exp (env env' : String → Option CallOutcome), env n = env' n →
       execute_code_no_input ⟨code, ExecOutcome.ok env⟩ exp "python" =
         execute_code_no_input ⟨code, ExecOutcome.ok env'⟩ exp "python") := by
  refine ⟨findDefAux_eq_some code.data n h, ?_, ?_⟩
  · intro exp env henv
    unfold execute_code_no_input
    simp only [h, henv, reduceIte]
  · intro exp env env' henv
    unfold execute_code_no_input
    simp only [h, reduceIte]
    rw [henv]

/-- A submission text defining two zero-parameter functions. -/
def twoDefsCode : String :=
  "def first():\n    return 1\ndef solution():\n    return 2"

/-- Witness for C10: with two zero-parameter functions, the first (`first`,
not `solution`) is the entry point: an environment lacking `first` fails
with "not found" even though `solution` is present, and the result ignores
everything but the binding of `first`. -/
theorem C10_entry_is_first_textual_def_witness :
    execute_code_no_input
        ⟨twoDefsCode,
          ExecOutcome.ok (fun m => if m = "solution"
            then some (CallOutcome.returns (some "2") "" "") else none)⟩
        "1" "python" =
      ⟨false, "", some "Function \x27first\x27 not found in code", false, "1", ""⟩ ∧
    execute_code_no_input
        ⟨twoDefsCode,
          ExecOutcome.ok (fun m => if m = "first"
            then some (CallOutcome.returns (some "1") "" "")
            else if m = "solution"
            then some (CallOutcome.returns (some "2") "" "") else none)⟩
        "1" "python" =
      execute_code_no_input
        ⟨twoDefsCode,
          ExecOutcome.ok (fun m => if m = "first"
            then some (CallOutcome.returns (some "1") "" "") else none)⟩
        "1" "python" :=
  ⟨(C10_entry_is_first_textual_def twoDefsCode "first"
      (by decide)).2.1 "1" _ (by decide),
   (C10_entry_is_first_textual_def twoDefsCode "first"
      (by decide)).2.2 "1" _ _ (by decide)⟩

end CodePractice
